import Mathlib

/-!
# Vuls scan results: the filter engine of `models/scanresults.go`

A shallow embedding of `src/models/scanresults.go` (the `ScanResult` aggregate and its
four filters) and of `src/scan/unknownDistro.go`.

Conventions of the embedding.

* A `float64` is `Float64`: NaN, an infinity, or a finite value kept as the rational
  number it denotes. The filters only compare scores (`<`, `<=`), so nothing is rounded;
  a comparison with NaN on either side is false, as in Go.
* Go maps are association lists read with `List.lookup`; a missing key reads as the zero
  value of the element type, as in Go.
* The ambient `config.Conf` is an explicit argument `conf`.
* `util.Log.Errorf` is modelled by returning the list of the messages logged during the
  call, in order, next to the result.
* `regexp.Compile` and `Regexp.MatchString` belong to the Go standard library and are
  taken as a parameter `RegexpLib`.
-/

namespace config

/-! ## Configuration (package `config`, the declarations the filters read) -/

/-- Modelled from the spec: `config.ContainerSetting` is not under src/; the spec's
configuration scope yields an ignore-CVE list and an ignore-package pattern list. -/
structure ContainerSetting where
  IgnoreCves : List String
  IgnorePkgsRegexp : List String
  deriving DecidableEq, Repr

/-- Modelled from the spec: `config.ServerInfo` is not under src/; the scope of a target
holds its ignore-CVE list, its ignore-package pattern list and its containers by name. -/
structure ServerInfo where
  IgnoreCves : List String
  IgnorePkgsRegexp : List String
  Containers : List (String × ContainerSetting)
  deriving DecidableEq, Repr

/-- The Go zero value of `config.ServerInfo`, read from a map at a missing key. -/
def ServerInfo.zero : ServerInfo := ⟨[], [], []⟩

/-- Modelled from the spec: `config.Config` is not under src/; the filters read the
global `IgnoreUnfixed` flag and the `Servers` map keyed by server name. -/
structure Config where
  IgnoreUnfixed : Bool
  Servers : List (String × ServerInfo)
  deriving DecidableEq, Repr

/-- Go `m[k]` on the servers map: the zero value when the key is missing. -/
def Config.server (conf : config.Config) (name : String) : ServerInfo :=
  (conf.Servers.lookup name).getD ServerInfo.zero

end config

namespace models

/-! ## Regular expressions (Go standard library `regexp`) -/

/-- The two operations of Go's `regexp` package the filters call: `Compile`, which
fails with an error text or yields a compiled expression, and `MatchString`. -/
structure RegexpLib where
  Regexp : Type
  Compile : String → Except String Regexp
  MatchString : Regexp → String → Bool

/-! ## float64 -/

/-- A Go `float64` as far as `<` and `<=` see it: NaN, the two infinities, or a finite
value, kept as the rational number it denotes (`-0` and `+0` compare equal and are both
`fin 0`). -/
inductive Float64 where
  | nan
  | negInf
  | fin (q : ℚ)
  | posInf
  deriving DecidableEq, Repr

/-- Go's `a < b` on float64: false when either side is NaN. -/
def Float64.lt : Float64 → Float64 → Bool
  | .nan, _ => false
  | _, .nan => false
  | .negInf, .negInf => false
  | .negInf, _ => true
  | .fin _, .negInf => false
  | .fin a, .fin b => decide (a < b)
  | .fin _, .posInf => true
  | .posInf, _ => false

/-- Go's `a <= b` on float64: false when either side is NaN. -/
def Float64.le : Float64 → Float64 → Bool
  | .nan, _ => false
  | _, .nan => false
  | .negInf, _ => true
  | .fin _, .negInf => false
  | .fin a, .fin b => decide (a ≤ b)
  | .fin _, .posInf => true
  | .posInf, .posInf => true
  | .posInf, _ => false

/-- The relation `a < b` of float64 values is Go's comparison. -/
instance Float64.instLT : LT Float64 := ⟨fun a b => Float64.lt a b = true⟩

/-- The relation `a ≤ b` of float64 values is Go's comparison. -/
instance Float64.instLE : LE Float64 := ⟨fun a b => Float64.le a b = true⟩

/-- Go's `<` is computed. -/
instance Float64.decLt (a b : Float64) : Decidable (a < b) :=
  inferInstanceAs (Decidable (Float64.lt a b = true))

/-- Go's `<=` is computed. -/
instance Float64.decLe (a b : Float64) : Decidable (a ≤ b) :=
  inferInstanceAs (Decidable (Float64.le a b = true))

/-- A numeral is the finite float64 of that value. -/
instance Float64.instOfNat (n : Nat) : OfNat Float64 n := ⟨Float64.fin n⟩

/-- The larger of two float64 values as the source computes it: the first, replaced by
the second when the first is smaller. -/
def Float64.max (a b : Float64) : Float64 :=
  if a < b then b else a

/-! ## Data model -/

/-- Kernel has the Release, version and whether need restart. -/
structure Kernel where
  Release : String
  Version : String
  RebootRequired : Bool
  deriving DecidableEq, Repr

/-- Container has Container information (`Type_` is the Go field `Type`). -/
structure Container where
  ContainerID : String
  Name : String
  Image : String
  Type_ : String
  UUID : String
  deriving DecidableEq, Repr

/-- Platform has platform information. -/
structure Platform where
  Name : String
  InstanceID : String
  deriving DecidableEq, Repr

/-- CweDictEntry is a dictionary of scanned CWE (`*cwe.Cwe` is kept as an optional
description text). -/
structure CweDictEntry where
  En : Option String
  Ja : Option String
  OwaspTopTen2017 : String
  deriving DecidableEq, Repr

/-- Modelled from the spec: `models.Package` is not under src/; a package record has a
name, an installed version and a candidate newer version (empty if none). -/
structure Package where
  Name : String
  Version : String
  NewVersion : String
  deriving DecidableEq, Repr

/-- Modelled from the spec: `models.SrcPackage` is not under src/; a source package
with the names of the binary packages linked to it. -/
structure SrcPackage where
  Name : String
  Version : String
  BinaryNames : List String
  deriving DecidableEq, Repr

/-- Modelled from the spec: `models.PackageStatus` is not under src/; an affected-package
entry carries the package name and a "not fixed yet" boolean. -/
structure PackageStatus where
  Name : String
  NotFixedYet : Bool
  deriving DecidableEq, Repr

/-- Modelled from the spec: `models.VulnInfo` is not under src/; a finding has a CVE
identifier, zero or more CVSS v2 and v3 scores, and a list of affected-package entries. -/
structure VulnInfo where
  CveID : String
  Cvss2Scores : List Float64
  Cvss3Scores : List Float64
  AffectedPackages : List PackageStatus
  deriving DecidableEq, Repr

/-- Modelled from the spec: `models.VulnInfos` is not under src/; the findings
collection of a scan result. -/
abbrev VulnInfos := List VulnInfo

/-- Modelled from the spec: `VulnInfos.Find` is not under src/; it returns the findings
of the collection that satisfy the predicate, each unmodified. -/
def VulnInfos.Find (v : VulnInfos) (f : VulnInfo → Bool) : VulnInfos :=
  List.filter f v

/-- The `Cvss` value read as `.Value` in `FilterByCvssOver`; only `Score` is used. -/
structure Cvss where
  Score : Float64
  deriving DecidableEq, Repr

/-- The `CveContentCvss` returned by `MaxCvss2Score` and `MaxCvss3Score`. -/
structure CveContentCvss where
  Value : Cvss
  deriving DecidableEq, Repr

/-- The best of a list of scores, an absent score contributing 0: the running maximum
starts at 0 and is replaced by each larger score. -/
def bestScore (scores : List Float64) : Float64 :=
  scores.foldl (fun m s => if m < s then s else m) 0

/-- Modelled from the spec: `VulnInfo.MaxCvss2Score` is not under src/; the best CVSS v2
score of the finding, 0 when it has none. -/
def VulnInfo.MaxCvss2Score (v : VulnInfo) : CveContentCvss :=
  ⟨⟨bestScore v.Cvss2Scores⟩⟩

/-- Modelled from the spec: `VulnInfo.MaxCvss3Score` is not under src/; the best CVSS v3
score of the finding, 0 when it has none. -/
def VulnInfo.MaxCvss3Score (v : VulnInfo) : CveContentCvss :=
  ⟨⟨bestScore v.Cvss3Scores⟩⟩

/-- The pair `Scan`, `Report` of configurations stored in a scan result. -/
structure ScanResultConfig where
  Scan : config.Config
  Report : config.Config
  deriving DecidableEq, Repr

/-- ScanResult has the result of scanned CVE information. `time.Time` values are kept as
integers, the maps as association lists. -/
structure ScanResult where
  JSONVersion : Int
  Lang : String
  ServerUUID : String
  ServerName : String
  Family : String
  Release : String
  Container : Container
  Platform : Platform
  IPv4Addrs : List String
  IPv6Addrs : List String
  ScannedAt : Int
  ScannedVersion : String
  ScannedRevision : String
  ScannedBy : String
  ReportedAt : Int
  ReportedVersion : String
  ReportedRevision : String
  ReportedBy : String
  ScannedCves : VulnInfos
  RunningKernel : Kernel
  Packages : List (String × Package)
  CweDict : List (String × CweDictEntry)
  Optional : List (String × String)
  SrcPackages : List (String × SrcPackage)
  Errors : List String
  Config : ScanResultConfig
  deriving DecidableEq, Repr

/-! ## The filters -/

/-- The predicate of `FilterByCvssOver`: the larger of the two best scores is at least
`over`. -/
def cvssOverKeep (over : Float64) (v : VulnInfo) : Bool :=
  let v2Max := v.MaxCvss2Score
  let v3Max := v.MaxCvss3Score
  let max := v2Max.Value.Score
  let max := if max < v3Max.Value.Score then v3Max.Value.Score else max
  if over ≤ max then true else false

/-- FilterByCvssOver is filter function. -/
def ScanResult.FilterByCvssOver (r : ScanResult) (over : Float64) : ScanResult :=
  let filtered := r.ScannedCves.Find (cvssOverKeep over)
  { r with ScannedCves := filtered }

/-- The predicate of `FilterIgnoreCves`: the loop over `ignoreCves` returns false at
the first identifier equal to the finding's, true when the list is exhausted. -/
def ignoreCvesKeep (ignoreCves : List String) (v : VulnInfo) : Bool :=
  match ignoreCves with
  | [] => true
  | c :: rest => if v.CveID = c then false else ignoreCvesKeep rest v

/-- The text logged when a server or container name has no entry in the configuration. -/
def notFoundMsg (name : String) : String :=
  name ++ " is not found in config.toml"

/-- FilterIgnoreCves is filter function. The second component lists the messages
logged by the call. (`len(s) == 0` holds exactly for the empty string.) -/
def ScanResult.FilterIgnoreCves (conf : config.Config) (r : ScanResult) :
    ScanResult × List String :=
  if r.Container.Name.length = 0 then
    let ignoreCves := (conf.server r.ServerName).IgnoreCves
    ({ r with ScannedCves := r.ScannedCves.Find (ignoreCvesKeep ignoreCves) }, [])
  else
    match conf.Servers.lookup r.ServerName with
    | some s =>
      match s.Containers.lookup r.Container.Name with
      | some con =>
        ({ r with ScannedCves := r.ScannedCves.Find (ignoreCvesKeep con.IgnoreCves) }, [])
      | none => (r, [notFoundMsg r.Container.Name])
    | none => (r, [notFoundMsg r.ServerName])

/-- The predicate of `FilterUnfixed`: `NotFixedAll` starts true and is and-ed with the
flag of every affected package; the finding is kept when it ends false. -/
def unfixedKeep (v : VulnInfo) : Bool :=
  let NotFixedAll := v.AffectedPackages.foldl (fun acc p => acc && p.NotFixedYet) true
  !NotFixedAll

/-- FilterUnfixed is filter function. -/
def ScanResult.FilterUnfixed (conf : config.Config) (r : ScanResult) : ScanResult :=
  if !conf.IgnoreUnfixed then r
  else
    let filtered := r.ScannedCves.Find unfixedKeep
    { r with ScannedCves := filtered }

/-- The compile loop of `FilterIgnorePkgs`: every pattern is compiled in order; a
pattern that fails is logged and skipped, the others are appended to `regexps`. -/
def compileRegexps (lib : RegexpLib) (ignorePkgsRegexps : List String) :
    List lib.Regexp × List String :=
  ignorePkgsRegexps.foldl
    (fun acc pkgRegexp =>
      match lib.Compile pkgRegexp with
      | .error err => (acc.1, acc.2 ++ ["Faild to parse " ++ pkgRegexp ++ ", " ++ err])
      | .ok re => (acc.1 ++ [re], acc.2))
    ([], [])

/-- The inner loop of `FilterIgnorePkgs`: `match` starts false and becomes true at each
expression matching the name. -/
def matchAny (lib : RegexpLib) (regexps : List lib.Regexp) (name : String) : Bool :=
  regexps.foldl (fun m re => if lib.MatchString re name then true else m) false

/-- The loop over the affected packages in `FilterIgnorePkgs`: returns true at the
first package no expression matches, false when the list is exhausted. -/
def somePkgUnmatched (lib : RegexpLib) (regexps : List lib.Regexp) :
    List PackageStatus → Bool
  | [] => false
  | p :: rest =>
    if !matchAny lib regexps p.Name then true else somePkgUnmatched lib regexps rest

/-- The predicate of `FilterIgnorePkgs`. -/
def ignorePkgsKeep (lib : RegexpLib) (regexps : List lib.Regexp) (v : VulnInfo) : Bool :=
  if v.AffectedPackages.length = 0 then true
  else somePkgUnmatched lib regexps v.AffectedPackages

/-- The part of `FilterIgnorePkgs` after the scope is resolved: compile, return `r`
when nothing compiled, filter otherwise. -/
def filterIgnorePkgsWith (lib : RegexpLib) (ignorePkgsRegexps : List String)
    (r : ScanResult) : ScanResult × List String :=
  let compiled := compileRegexps lib ignorePkgsRegexps
  let regexps := compiled.1
  if regexps.length = 0 then (r, compiled.2)
  else
    let filtered := r.ScannedCves.Find (ignorePkgsKeep lib regexps)
    ({ r with ScannedCves := filtered }, compiled.2)

/-- FilterIgnorePkgs is filter function. The second component lists the messages
logged by the call. -/
def ScanResult.FilterIgnorePkgs (lib : RegexpLib) (conf : config.Config) (r : ScanResult) :
    ScanResult × List String :=
  if r.Container.Name.length = 0 then
    filterIgnorePkgsWith lib (conf.server r.ServerName).IgnorePkgsRegexp r
  else
    match conf.Servers.lookup r.ServerName with
    | some s =>
      match s.Containers.lookup r.Container.Name with
      | some con => filterIgnorePkgsWith lib con.IgnorePkgsRegexp r
      | none => (r, [notFoundMsg r.Container.Name])
    | none => (r, [notFoundMsg r.ServerName])

/-! ## Names of a scan result -/

/-- ReportFileName returns the filename on localhost without extention
(`fmt.Sprintf` with `%s` verbs is concatenation). -/
def ScanResult.ReportFileName (r : ScanResult) : String :=
  if r.Container.ContainerID.length = 0 then r.ServerName
  else r.Container.Name ++ "@" ++ r.ServerName

/-- FormatServerName returns server and container name. -/
def ScanResult.FormatServerName (r : ScanResult) : String :=
  let name :=
    if r.Container.ContainerID.length = 0 then r.ServerName
    else r.Container.Name ++ "@" ++ r.ServerName
  if r.RunningKernel.RebootRequired then "[Reboot Required] " ++ name else name

/-- IsContainer returns whether this ServerInfo is about container. -/
def ScanResult.IsContainer (r : ScanResult) : Bool :=
  decide (0 < r.Container.ContainerID.length)

/-- The binary package collection, keyed by name (`models.Packages`). -/
abbrev Packages := List (String × Package)

/-- The source package collection, keyed by name (`models.SrcPackages`). -/
abbrev SrcPackages := List (String × SrcPackage)

/-! ## Notions used to state the properties -/

/-- Effective severity of a finding: the larger of its best CVSS v2 and v3 scores. -/
def effectiveSeverity (v : VulnInfo) : Float64 :=
  Float64.max v.MaxCvss2Score.Value.Score v.MaxCvss3Score.Value.Score

/-- The four filters of a scan result. -/
inductive FilterKind where
  | byCvssOver
  | ignoreCves
  | unfixed
  | ignorePkgs
  deriving DecidableEq, Repr

/-- The scan result returned by a filter, under a fixed regexp library, configuration
and threshold. -/
def applyFilter (lib : RegexpLib) (conf : config.Config) (T : Float64) :
    FilterKind → ScanResult → ScanResult
  | .byCvssOver, r => r.FilterByCvssOver T
  | .ignoreCves, r => (r.FilterIgnoreCves conf).1
  | .unfixed, r => r.FilterUnfixed conf
  | .ignorePkgs, r => (r.FilterIgnorePkgs lib conf).1

/-- The target of the scan result has no entry in the configuration: the server name is
not a key of the servers map, or the container name is non-empty and not a key of the
containers map of that server. -/
def unknownTarget (conf : config.Config) (r : ScanResult) : Prop :=
  conf.Servers.lookup r.ServerName = none ∨
    (r.Container.Name.length ≠ 0 ∧
      ∃ s, conf.Servers.lookup r.ServerName = some s ∧
        s.Containers.lookup r.Container.Name = none)

/-- The ignore list the configuration scope of a scan result resolves to: the server's
`IgnoreCves` when the container name is empty, the container's otherwise; `none` when a
container is named and the server or the container has no entry. -/
def resolvedIgnoreCves (conf : config.Config) (r : ScanResult) : Option (List String) :=
  if r.Container.Name.length = 0 then some (conf.server r.ServerName).IgnoreCves
  else
    match conf.Servers.lookup r.ServerName with
    | some s => (s.Containers.lookup r.Container.Name).map (fun con => con.IgnoreCves)
    | none => none

/-- The pattern list the configuration scope of a scan result resolves to, as
`resolvedIgnoreCves`. -/
def resolvedIgnorePkgsRegexp (conf : config.Config) (r : ScanResult) :
    Option (List String) :=
  if r.Container.Name.length = 0 then some (conf.server r.ServerName).IgnorePkgsRegexp
  else
    match conf.Servers.lookup r.ServerName with
    | some s =>
      (s.Containers.lookup r.Container.Name).map (fun con => con.IgnorePkgsRegexp)
    | none => none

/-- A regexp library for concrete evaluation: every pattern but `"("` compiles, to
itself, and an expression matches the names it is a prefix of. -/
def prefixLib : RegexpLib where
  Regexp := String
  Compile := fun p => if p = "(" then .error "missing closing )" else .ok p
  MatchString := fun re name => re.toList.isPrefixOf name.toList

/-- A transformation of scan results that keeps every field but the findings and keeps
of the findings those satisfying a predicate determined by the other fields. -/
def IsFindingsFilter (F : ScanResult → ScanResult) : Prop :=
  ∀ r : ScanResult, ∃ q : VulnInfo → Bool, ∀ cves : VulnInfos,
    F { r with ScannedCves := cves } = { r with ScannedCves := cves.filter q }

/-! ## Concrete inputs -/

/-- A scan result with every field at its zero value. -/
def ScanResult.blank : ScanResult where
  JSONVersion := 0
  Lang := ""
  ServerUUID := ""
  ServerName := ""
  Family := ""
  Release := ""
  Container := ⟨"", "", "", "", ""⟩
  Platform := ⟨"", ""⟩
  IPv4Addrs := []
  IPv6Addrs := []
  ScannedAt := 0
  ScannedVersion := ""
  ScannedRevision := ""
  ScannedBy := ""
  ReportedAt := 0
  ReportedVersion := ""
  ReportedRevision := ""
  ReportedBy := ""
  ScannedCves := []
  RunningKernel := ⟨"", "", false⟩
  Packages := []
  CweDict := []
  Optional := []
  SrcPackages := []
  Errors := []
  Config := ⟨⟨false, []⟩, ⟨false, []⟩⟩

/-- Finding with a v3 score of 9 and one fixed package. -/
def cve1 : VulnInfo := ⟨"CVE-2020-1", [], [9], [⟨"a", false⟩]⟩

/-- Finding with a v3 score of 3 and no affected package. -/
def cve2 : VulnInfo := ⟨"CVE-2020-2", [], [3], []⟩

/-- Finding whose two affected packages are both not fixed yet. -/
def cve3 : VulnInfo := ⟨"CVE-2020-3", [], [], [⟨"x", true⟩, ⟨"y", true⟩]⟩

/-- Finding with one package not fixed yet and one fixed. -/
def cve4 : VulnInfo := ⟨"CVE-2020-4", [], [], [⟨"x", true⟩, ⟨"y", false⟩]⟩

/-- Finding whose affected packages are `libfoo` and `libbar`. -/
def cve5 : VulnInfo := ⟨"CVE-2020-5", [], [], [⟨"libfoo", false⟩, ⟨"libbar", false⟩]⟩

/-- Finding whose affected packages are `libfoo` and `curl`. -/
def cve6 : VulnInfo := ⟨"CVE-2020-6", [], [], [⟨"libfoo", false⟩, ⟨"curl", false⟩]⟩

/-- A configuration with one server `web01`, which ignores `CVE-2020-2` and the
packages matching `lib`, has one pattern that does not compile, and one container. -/
def sampleConf : config.Config :=
  ⟨true, [("web01", ⟨["CVE-2020-2"], ["(", "lib"], [("app", ⟨["CVE-2020-1"], ["lib"]⟩)]⟩)]⟩

/-- A scan result of the host `web01` with the six sample findings. -/
def sampleResult : ScanResult :=
  { ScanResult.blank with
    ServerName := "web01"
    ScannedCves := [cve1, cve2, cve3, cve4, cve5, cve6] }

/-- A scan result of a host `db01` that has no entry in `sampleConf`. -/
def unknownHostResult : ScanResult :=
  { ScanResult.blank with
    ServerName := "db01"
    ScannedCves := [cve1, cve2] }

/-- A scan result of the container `app` on the host `web01`. -/
def sampleContainerResult : ScanResult :=
  { ScanResult.blank with
    ServerName := "web01"
    Container := ⟨"c0ffee", "app", "", "", ""⟩
    ScannedCves := [cve1, cve2, cve5, cve6] }

/-- A scan result of a container `worker` that `web01` has no entry for. -/
def unknownContainerResult : ScanResult :=
  { ScanResult.blank with
    ServerName := "web01"
    Container := ⟨"deadbeef", "worker", "", "", ""⟩
    ScannedCves := [cve1, cve2] }

/-- The pattern compiles under the library. -/
def compiles (lib : RegexpLib) (pat : String) : Bool :=
  match lib.Compile pat with
  | .ok _ => true
  | .error _ => false

/-- The name of a scan result in the words of the specification: the report file name,
headed by the reboot mark when the running kernel requires a reboot. -/
def specServerName (r : ScanResult) : String :=
  if r.RunningKernel.RebootRequired then "[Reboot Required] " ++ r.ReportFileName
  else r.ReportFileName

/-- The sample configuration with `IgnoreUnfixed` not set. -/
def keepUnfixedConf : config.Config := ⟨false, sampleConf.Servers⟩

/-- A configuration whose only pattern for `web01` does not compile. -/
def invalidPatternConf : config.Config := ⟨true, [("web01", ⟨[], ["("], []⟩)]⟩

/-- A configuration whose only pattern for `web01` is `lib`. -/
def libPatternConf : config.Config := ⟨true, [("web01", ⟨[], ["lib"], []⟩)]⟩

/-- A configuration whose patterns for `web01` are `lib` and `cu`. -/
def twoPatternConf : config.Config := ⟨true, [("web01", ⟨[], ["lib", "cu"], []⟩)]⟩

/-- A container scan result whose running kernel requires a reboot. -/
def rebootContainerResult : ScanResult :=
  { sampleContainerResult with RunningKernel := ⟨"4.4.0", "", true⟩ }

end models

namespace scan

/-! ## The unknown distribution (`scan/unknownDistro.go`) -/

/-- The scanner of an unknown distribution; it inherits `base`, whose declaration is
not under src/ and is taken as a parameter. -/
structure unknown (Base : Type) where
  base : Base

/-- An `error` value: `none` is `nil`, `some msg` an error with that text. -/
abbrev Error := Option String

/-- checkIfSudoNoPasswd of the unknown distribution. -/
def unknown.checkIfSudoNoPasswd {Base : Type} (_o : unknown Base) : Error := none

/-- checkDeps of the unknown distribution. -/
def unknown.checkDeps {Base : Type} (_o : unknown Base) : Error := none

/-- preCure of the unknown distribution. -/
def unknown.preCure {Base : Type} (_o : unknown Base) : Error := none

/-- postScan of the unknown distribution. -/
def unknown.postScan {Base : Type} (_o : unknown Base) : Error := none

/-- scanPackages of the unknown distribution. -/
def unknown.scanPackages {Base : Type} (_o : unknown Base) : Error := none

/-- parseInstalledPackages of the unknown distribution: `nil, nil, nil`, a nil map
being the empty collection. -/
def unknown.parseInstalledPackages {Base : Type} (_o : unknown Base) (_raw : String) :
    models.Packages × models.SrcPackages × Error :=
  ([], [], none)

end scan

namespace models

/-! ## Comparison of float64 values -/

theorem float64_le_def (a b : Float64) : (a ≤ b) = (Float64.le a b = true) := rfl

theorem float64_lt_def (a b : Float64) : (a < b) = (Float64.lt a b = true) := rfl

theorem float64_not_le_nan (a : Float64) : ¬ a ≤ Float64.nan := by
  rw [float64_le_def]
  cases a <;> simp [Float64.le]

theorem float64_not_nan_le (a : Float64) : ¬ Float64.nan ≤ a := by
  rw [float64_le_def]
  cases a <;> simp [Float64.le]

theorem float64_not_lt_nan (a : Float64) : ¬ a < Float64.nan := by
  rw [float64_lt_def]
  cases a <;> simp [Float64.lt]

theorem float64_le_trans (a b c : Float64) (hab : a ≤ b) (hbc : b ≤ c) : a ≤ c := by
  rw [float64_le_def] at hab hbc ⊢
  cases a <;> cases b <;> cases c <;> simp_all [Float64.le]
  exact le_trans hab hbc

theorem float64_lt_of_not_le (a b : Float64) (ha : a ≠ Float64.nan) (hb : b ≠ Float64.nan)
    (h : ¬ a ≤ b) : b < a := by
  rw [float64_le_def] at h
  rw [float64_lt_def]
  cases a <;> cases b <;> simp_all [Float64.le, Float64.lt]

theorem float64_not_le_of_lt (a b : Float64) (h : b < a) : ¬ a ≤ b := by
  rw [float64_lt_def] at h
  rw [float64_le_def]
  cases a <;> cases b <;> simp_all [Float64.le, Float64.lt]

theorem float64_max_ne_nan (a b : Float64) (ha : a ≠ Float64.nan) :
    Float64.max a b ≠ Float64.nan := by
  unfold Float64.max
  by_cases h : a < b
  · rw [if_pos h]
    intro hb
    rw [hb] at h
    exact float64_not_lt_nan a h
  · rw [if_neg h]
    exact ha

/-- On values other than NaN, `Float64.max` is the maximum: it is one of the two values
and both are at most it. -/
theorem float64_max_spec (a b : Float64) (ha : a ≠ Float64.nan) (hb : b ≠ Float64.nan) :
    (Float64.max a b = a ∨ Float64.max a b = b) ∧
      a ≤ Float64.max a b ∧ b ≤ Float64.max a b := by
  unfold Float64.max
  simp only [float64_le_def, float64_lt_def]
  cases a <;> cases b <;> simp_all [Float64.le, Float64.lt]
  rename_i x y
  by_cases hxy : x < y
  · simp [hxy, le_of_lt hxy]
  · simp [hxy, not_lt.mp hxy]

theorem bestScore_foldl_ne_nan (scores : List Float64) (m : Float64)
    (hm : m ≠ Float64.nan) :
    scores.foldl (fun m s => if m < s then s else m) m ≠ Float64.nan := by
  induction scores generalizing m with
  | nil => exact hm
  | cons s rest ih =>
    rw [List.foldl_cons]
    exact ih _ (float64_max_ne_nan m s hm)

/-- The best score of a list is never NaN: the running maximum starts at 0 and a NaN
score is never larger than it. -/
theorem bestScore_ne_nan (scores : List Float64) : bestScore scores ≠ Float64.nan :=
  bestScore_foldl_ne_nan scores 0 (by decide)

/-! ## The predicates of the filters -/

theorem cvssOverKeep_iff (T : Float64) (v : VulnInfo) :
    cvssOverKeep T v = true ↔ T ≤ effectiveSeverity v := by
  unfold cvssOverKeep effectiveSeverity Float64.max
  simp

theorem ignoreCvesKeep_iff (L : List String) (v : VulnInfo) :
    ignoreCvesKeep L v = true ↔ v.CveID ∉ L := by
  induction L with
  | nil => simp [ignoreCvesKeep]
  | cons c rest ih =>
    by_cases h : v.CveID = c
    · simp [ignoreCvesKeep, h]
    · simp [ignoreCvesKeep, h, ih]

theorem foldl_and_notFixed (pkgs : List PackageStatus) (b : Bool) :
    pkgs.foldl (fun acc p => acc && p.NotFixedYet) b
      = (b && pkgs.all (fun p => p.NotFixedYet)) := by
  induction pkgs generalizing b with
  | nil => simp
  | cons p rest ih => simp [ih, Bool.and_assoc]

theorem unfixedKeep_iff (v : VulnInfo) :
    unfixedKeep v = true ↔ ∃ p ∈ v.AffectedPackages, p.NotFixedYet = false := by
  simp [unfixedKeep, foldl_and_notFixed]

theorem foldl_match (lib : RegexpLib) (regexps : List lib.Regexp) (name : String)
    (b : Bool) :
    regexps.foldl (fun m re => if lib.MatchString re name then true else m) b
      = (b || regexps.any (fun re => lib.MatchString re name)) := by
  induction regexps generalizing b with
  | nil => simp
  | cons re rest ih =>
    rw [List.foldl_cons, ih, List.any_cons]
    cases lib.MatchString re name <;> simp

theorem matchAny_iff (lib : RegexpLib) (regexps : List lib.Regexp) (name : String) :
    matchAny lib regexps name = true ↔ ∃ re ∈ regexps, lib.MatchString re name = true := by
  unfold matchAny
  rw [foldl_match]
  simp

theorem somePkgUnmatched_iff (lib : RegexpLib) (regexps : List lib.Regexp)
    (pkgs : List PackageStatus) :
    somePkgUnmatched lib regexps pkgs = true
      ↔ ∃ p ∈ pkgs, matchAny lib regexps p.Name = false := by
  induction pkgs with
  | nil => simp [somePkgUnmatched]
  | cons p rest ih =>
    by_cases h : matchAny lib regexps p.Name = true
    · simp [somePkgUnmatched, h, ih]
    · simp [somePkgUnmatched, h]

/-! ## Every filter filters the findings by a predicate fixed by the other fields -/

theorem IsFindingsFilter.apply_eq {F : ScanResult → ScanResult} (hF : IsFindingsFilter F)
    (r : ScanResult) :
    ∃ q : VulnInfo → Bool, F r = { r with ScannedCves := r.ScannedCves.filter q } := by
  obtain ⟨q, hq⟩ := hF r
  exact ⟨q, hq r.ScannedCves⟩

theorem IsFindingsFilter.comm {F G : ScanResult → ScanResult} (hF : IsFindingsFilter F)
    (hG : IsFindingsFilter G) (r : ScanResult) : F (G r) = G (F r) := by
  obtain ⟨p, hp⟩ := hF r
  obtain ⟨q, hq⟩ := hG r
  have h1 : G r = { r with ScannedCves := r.ScannedCves.filter q } := hq r.ScannedCves
  have h2 : F r = { r with ScannedCves := r.ScannedCves.filter p } := hp r.ScannedCves
  rw [h1, h2, hp, hq, List.filter_comm]

theorem IsFindingsFilter.idem {F : ScanResult → ScanResult} (hF : IsFindingsFilter F)
    (r : ScanResult) : F (F r) = F r := by
  obtain ⟨p, hp⟩ := hF r
  have h2 : F r = { r with ScannedCves := r.ScannedCves.filter p } := hp r.ScannedCves
  rw [h2, hp, List.filter_filter]
  simp

theorem isFindingsFilter_byCvssOver (T : Float64) :
    IsFindingsFilter (fun r => r.FilterByCvssOver T) :=
  fun _ => ⟨cvssOverKeep T, fun _ => rfl⟩

theorem isFindingsFilter_unfixed (conf : config.Config) :
    IsFindingsFilter (fun r => r.FilterUnfixed conf) := by
  intro r
  by_cases h : conf.IgnoreUnfixed = true
  · exact ⟨unfixedKeep, fun cves => by simp [ScanResult.FilterUnfixed, h, VulnInfos.Find]⟩
  · exact ⟨fun _ => true, fun cves => by simp [ScanResult.FilterUnfixed, h]⟩

theorem isFindingsFilter_ignoreCves (conf : config.Config) :
    IsFindingsFilter (fun r => (r.FilterIgnoreCves conf).1) := by
  intro r
  by_cases h : r.Container.Name.length = 0
  · exact ⟨ignoreCvesKeep (conf.server r.ServerName).IgnoreCves, fun cves => by
      simp [ScanResult.FilterIgnoreCves, h, VulnInfos.Find]⟩
  · cases hs : conf.Servers.lookup r.ServerName with
    | none =>
      exact ⟨fun _ => true, fun cves => by simp [ScanResult.FilterIgnoreCves, h, hs]⟩
    | some s =>
      cases hc : s.Containers.lookup r.Container.Name with
      | none =>
        exact ⟨fun _ => true, fun cves => by
          simp [ScanResult.FilterIgnoreCves, h, hs, hc]⟩
      | some con =>
        exact ⟨ignoreCvesKeep con.IgnoreCves, fun cves => by
          simp [ScanResult.FilterIgnoreCves, h, hs, hc, VulnInfos.Find]⟩

theorem filterIgnorePkgsWith_frame (lib : RegexpLib) (L : List String) (r : ScanResult) :
    ∃ q : VulnInfo → Bool, ∀ cves : VulnInfos,
      (filterIgnorePkgsWith lib L { r with ScannedCves := cves }).1
        = { r with ScannedCves := cves.filter q } := by
  by_cases h : (compileRegexps lib L).1.length = 0
  · exact ⟨fun _ => true, fun cves => by simp [filterIgnorePkgsWith, h]⟩
  · exact ⟨ignorePkgsKeep lib (compileRegexps lib L).1, fun cves => by
      simp [filterIgnorePkgsWith, h, VulnInfos.Find]⟩

theorem isFindingsFilter_ignorePkgs (lib : RegexpLib) (conf : config.Config) :
    IsFindingsFilter (fun r => (r.FilterIgnorePkgs lib conf).1) := by
  intro r
  by_cases h : r.Container.Name.length = 0
  · obtain ⟨q, hq⟩ := filterIgnorePkgsWith_frame lib (conf.server r.ServerName).IgnorePkgsRegexp r
    exact ⟨q, fun cves => by simpa [ScanResult.FilterIgnorePkgs, h] using hq cves⟩
  · cases hs : conf.Servers.lookup r.ServerName with
    | none =>
      exact ⟨fun _ => true, fun cves => by simp [ScanResult.FilterIgnorePkgs, h, hs]⟩
    | some s =>
      cases hc : s.Containers.lookup r.Container.Name with
      | none =>
        exact ⟨fun _ => true, fun cves => by
          simp [ScanResult.FilterIgnorePkgs, h, hs, hc]⟩
      | some con =>
        obtain ⟨q, hq⟩ := filterIgnorePkgsWith_frame lib con.IgnorePkgsRegexp r
        exact ⟨q, fun cves => by simpa [ScanResult.FilterIgnorePkgs, h, hs, hc] using hq cves⟩

theorem isFindingsFilter_applyFilter (lib : RegexpLib) (conf : config.Config) (T : Float64)
    (F : FilterKind) : IsFindingsFilter (applyFilter lib conf T F) := by
  cases F
  · exact isFindingsFilter_byCvssOver T
  · exact isFindingsFilter_ignoreCves conf
  · exact isFindingsFilter_unfixed conf
  · exact isFindingsFilter_ignorePkgs lib conf

/-! ## Membership in the output of each filter -/

theorem mem_FilterByCvssOver (r : ScanResult) (T : Float64) (v : VulnInfo) :
    v ∈ (r.FilterByCvssOver T).ScannedCves
      ↔ v ∈ r.ScannedCves ∧ T ≤ effectiveSeverity v := by
  simp [ScanResult.FilterByCvssOver, VulnInfos.Find, List.mem_filter, cvssOverKeep_iff]

theorem mem_FilterUnfixed (conf : config.Config) (r : ScanResult)
    (h : conf.IgnoreUnfixed = true) (v : VulnInfo) :
    v ∈ (r.FilterUnfixed conf).ScannedCves
      ↔ v ∈ r.ScannedCves ∧ ∃ p ∈ v.AffectedPackages, p.NotFixedYet = false := by
  have hf : (r.FilterUnfixed conf).ScannedCves = r.ScannedCves.filter unfixedKeep := by
    simp [ScanResult.FilterUnfixed, h, VulnInfos.Find]
  rw [hf, List.mem_filter, unfixedKeep_iff]

theorem FilterIgnoreCves_of_resolved (conf : config.Config) (r : ScanResult)
    (L : List String) (h : resolvedIgnoreCves conf r = some L) :
    r.FilterIgnoreCves conf
      = ({ r with ScannedCves := r.ScannedCves.Find (ignoreCvesKeep L) }, []) := by
  unfold resolvedIgnoreCves at h
  unfold ScanResult.FilterIgnoreCves
  by_cases hn : r.Container.Name.length = 0
  · simp only [hn, if_true, Option.some.injEq] at h ⊢
    rw [h]
  · simp only [hn, if_false] at h ⊢
    cases hs : conf.Servers.lookup r.ServerName with
    | none => simp [hs] at h
    | some s =>
      cases hc : s.Containers.lookup r.Container.Name with
      | none => simp [hs, hc] at h
      | some con =>
        simp only [hs, hc, Option.map_some', Option.some.injEq] at h ⊢
        rw [h]

theorem FilterIgnorePkgs_of_resolved (lib : RegexpLib) (conf : config.Config)
    (r : ScanResult) (L : List String) (h : resolvedIgnorePkgsRegexp conf r = some L) :
    r.FilterIgnorePkgs lib conf = filterIgnorePkgsWith lib L r := by
  unfold resolvedIgnorePkgsRegexp at h
  unfold ScanResult.FilterIgnorePkgs
  by_cases hn : r.Container.Name.length = 0
  · simp only [hn, if_true, Option.some.injEq] at h ⊢
    rw [h]
  · simp only [hn, if_false] at h ⊢
    cases hs : conf.Servers.lookup r.ServerName with
    | none => simp [hs] at h
    | some s =>
      cases hc : s.Containers.lookup r.Container.Name with
      | none => simp [hs, hc] at h
      | some con =>
        simp only [hs, hc, Option.map_some', Option.some.injEq] at h ⊢
        rw [h]

theorem compileRegexps_foldl (lib : RegexpLib) (L : List String)
    (acc : List lib.Regexp × List String) :
    (L.foldl
      (fun acc pkgRegexp =>
        match lib.Compile pkgRegexp with
        | .error err => (acc.1, acc.2 ++ ["Faild to parse " ++ pkgRegexp ++ ", " ++ err])
        | .ok re => (acc.1 ++ [re], acc.2))
      acc).1 = acc.1 ++ L.filterMap (fun pat => (lib.Compile pat).toOption) := by
  induction L generalizing acc with
  | nil => simp
  | cons pat rest ih =>
    rw [List.foldl_cons, ih]
    cases hc : lib.Compile pat <;> simp [hc, List.filterMap_cons, Except.toOption]

/-- The expressions `FilterIgnorePkgs` matches with are the patterns of the list that
compile, in order. -/
theorem compileRegexps_fst (lib : RegexpLib) (L : List String) :
    (compileRegexps lib L).1 = L.filterMap (fun pat => (lib.Compile pat).toOption) := by
  unfold compileRegexps
  rw [compileRegexps_foldl]
  simp

theorem mem_compileRegexps (lib : RegexpLib) (L : List String) (re : lib.Regexp) :
    re ∈ (compileRegexps lib L).1 ↔ ∃ pat ∈ L, lib.Compile pat = .ok re := by
  rw [compileRegexps_fst, List.mem_filterMap]
  constructor
  · rintro ⟨pat, hpat, h⟩
    refine ⟨pat, hpat, ?_⟩
    cases hc : lib.Compile pat with
    | error e => simp [hc, Except.toOption] at h
    | ok re2 =>
      simp [hc, Except.toOption] at h
      rw [h]
  · rintro ⟨pat, hpat, h⟩
    exact ⟨pat, hpat, by simp [h, Except.toOption]⟩

theorem ignorePkgsKeep_iff (lib : RegexpLib) (regexps : List lib.Regexp) (v : VulnInfo) :
    ignorePkgsKeep lib regexps v = true
      ↔ v.AffectedPackages = [] ∨
        ∃ p ∈ v.AffectedPackages, ∀ re ∈ regexps, lib.MatchString re p.Name = false := by
  unfold ignorePkgsKeep
  by_cases h : v.AffectedPackages = []
  · simp [h]
  · have hlen : v.AffectedPackages.length ≠ 0 := by simpa using h
    simp only [hlen, if_false, h, false_or, somePkgUnmatched_iff]
    constructor
    · rintro ⟨p, hp, hm⟩
      refine ⟨p, hp, fun re hre => ?_⟩
      cases hx : lib.MatchString re p.Name with
      | false => rfl
      | true =>
        have : matchAny lib regexps p.Name = true := (matchAny_iff _ _ _).mpr ⟨re, hre, hx⟩
        rw [this] at hm
        exact absurd hm (by simp)
    · rintro ⟨p, hp, hall⟩
      refine ⟨p, hp, ?_⟩
      cases hx : matchAny lib regexps p.Name with
      | false => rfl
      | true =>
        obtain ⟨re, hre, hm⟩ := (matchAny_iff _ _ _).mp hx
        rw [hall re hre] at hm
        exact absurd hm (by simp)

/-! ## Severity threshold -/

/-- The effective severity of a finding is never NaN. -/
theorem effectiveSeverity_ne_nan (v : VulnInfo) : effectiveSeverity v ≠ Float64.nan :=
  float64_max_ne_nan _ _ (bestScore_ne_nan v.Cvss2Scores)

/-- The effective severity is the maximum of the two best scores: it is one of them and
both are at most it. -/
theorem effectiveSeverity_spec (v : VulnInfo) :
    (effectiveSeverity v = v.MaxCvss2Score.Value.Score ∨
        effectiveSeverity v = v.MaxCvss3Score.Value.Score) ∧
      v.MaxCvss2Score.Value.Score ≤ effectiveSeverity v ∧
      v.MaxCvss3Score.Value.Score ≤ effectiveSeverity v :=
  float64_max_spec _ _ (bestScore_ne_nan v.Cvss2Scores) (bestScore_ne_nan v.Cvss3Scores)

/-- C1 (amended): for every threshold `T` other than NaN, every finding in the output
of `FilterByCvssOver T` has effective severity at least `T`, and every finding of the
input that is not in the output has effective severity below `T`. -/
theorem FilterByCvssOver_threshold (r : ScanResult) (T : Float64)
    (hT : T ≠ Float64.nan) :
    (∀ v ∈ (r.FilterByCvssOver T).ScannedCves, T ≤ effectiveSeverity v) ∧
      (∀ v ∈ r.ScannedCves, v ∉ (r.FilterByCvssOver T).ScannedCves →
        effectiveSeverity v < T) := by
  constructor
  · intro v hv
    exact ((mem_FilterByCvssOver r T v).mp hv).2
  · intro v hv hout
    apply float64_lt_of_not_le T (effectiveSeverity v) hT (effectiveSeverity_ne_nan v)
    intro hle
    exact hout ((mem_FilterByCvssOver r T v).mpr ⟨hv, hle⟩)

/-- The threshold 7 on the sample result: the finding scored 9 is kept, the others are
below 7. -/
theorem FilterByCvssOver_threshold_witness :
    (7 : Float64) ≠ Float64.nan ∧
      ((∀ v ∈ (sampleResult.FilterByCvssOver 7).ScannedCves, 7 ≤ effectiveSeverity v) ∧
        (∀ v ∈ sampleResult.ScannedCves, v ∉ (sampleResult.FilterByCvssOver 7).ScannedCves →
          effectiveSeverity v < 7)) :=
  ⟨by decide, FilterByCvssOver_threshold sampleResult 7 (by decide)⟩

/-- C1 as stated fails at the threshold NaN: `over <= max` is false for every finding,
so the finding scored 9 is dropped, and its effective severity 9 is not below NaN. -/
theorem FilterByCvssOver_nan_counterexample :
    ¬ ((∀ v ∈ (sampleResult.FilterByCvssOver Float64.nan).ScannedCves,
          Float64.nan ≤ effectiveSeverity v) ∧
        (∀ v ∈ sampleResult.ScannedCves,
          v ∉ (sampleResult.FilterByCvssOver Float64.nan).ScannedCves →
            effectiveSeverity v < Float64.nan)) := by
  rintro ⟨_, h⟩
  have hmem : cve1 ∈ sampleResult.ScannedCves := by decide
  have hout : cve1 ∉ (sampleResult.FilterByCvssOver Float64.nan).ScannedCves := by
    intro hin
    exact float64_not_nan_le _ ((mem_FilterByCvssOver _ _ _).mp hin).2
  exact float64_not_lt_nan _ (h cve1 hmem hout)

/-- At the threshold NaN `FilterByCvssOver` drops every finding. -/
theorem FilterByCvssOver_nan (r : ScanResult) :
    (r.FilterByCvssOver Float64.nan).ScannedCves = [] := by
  rw [List.eq_nil_iff_forall_not_mem]
  intro v hv
  exact float64_not_nan_le _ ((mem_FilterByCvssOver r Float64.nan v).mp hv).2

/-- At the threshold NaN the filter drops every finding of the sample result, the
finding of effective severity 9 included. -/
theorem FilterByCvssOver_nan_example :
    (sampleResult.FilterByCvssOver Float64.nan).ScannedCves = [] ∧
      effectiveSeverity cve1 = 9 := by
  decide

/-- The severity example of the specification: with threshold 7, of a finding scored
9 and a finding scored 3 only the first is kept. -/
theorem FilterByCvssOver_example :
    ({ ScanResult.blank with ScannedCves := [cve1, cve2] }.FilterByCvssOver 7).ScannedCves
      = [cve1] := by
  decide

/-! ## Fixed status -/

/-- C2: with `IgnoreUnfixed` set, a finding of the input is dropped by `FilterUnfixed`
exactly when all of its affected packages are not fixed yet, and kept exactly when at
least one affected package is fixed. -/
theorem FilterUnfixed_drop_iff (conf : config.Config) (r : ScanResult) (v : VulnInfo)
    (hconf : conf.IgnoreUnfixed = true) (hv : v ∈ r.ScannedCves) :
    (v ∉ (r.FilterUnfixed conf).ScannedCves
        ↔ ∀ p ∈ v.AffectedPackages, p.NotFixedYet = true) ∧
      (v ∈ (r.FilterUnfixed conf).ScannedCves
        ↔ ∃ p ∈ v.AffectedPackages, p.NotFixedYet = false) := by
  have hmem := mem_FilterUnfixed conf r hconf v
  constructor
  · rw [hmem]
    simp [hv]
  · rw [hmem]
    simp [hv]

/-- The fixed-status example of the specification, at the finding with one fixed
package. -/
theorem FilterUnfixed_drop_iff_witness :
    sampleConf.IgnoreUnfixed = true ∧ cve4 ∈ sampleResult.ScannedCves ∧
      ((cve4 ∉ (sampleResult.FilterUnfixed sampleConf).ScannedCves
          ↔ ∀ p ∈ cve4.AffectedPackages, p.NotFixedYet = true) ∧
        (cve4 ∈ (sampleResult.FilterUnfixed sampleConf).ScannedCves
          ↔ ∃ p ∈ cve4.AffectedPackages, p.NotFixedYet = false)) :=
  ⟨rfl, by decide, FilterUnfixed_drop_iff sampleConf sampleResult cve4 rfl (by decide)⟩

/-- The fixed-status example of the specification: the finding whose packages are all
not fixed yet is dropped, the finding with a fixed package is kept. -/
theorem FilterUnfixed_example :
    ({ ScanResult.blank with ScannedCves := [cve3, cve4] }.FilterUnfixed sampleConf).ScannedCves
      = [cve4] := by
  decide

/-! ## Package-name patterns -/

/-- C3: when the scope resolves to a pattern list of which at least one pattern
compiles, a finding of the input with at least one affected package is dropped by
`FilterIgnorePkgs` exactly when every affected package name matches some compiled
pattern, and kept exactly when some affected package matches no compiled pattern. -/
theorem FilterIgnorePkgs_drop_iff (lib : RegexpLib) (conf : config.Config)
    (r : ScanResult) (L : List String) (v : VulnInfo)
    (hL : resolvedIgnorePkgsRegexp conf r = some L)
    (hcomp : ∃ pat ∈ L, ∃ re, lib.Compile pat = .ok re)
    (hv : v ∈ r.ScannedCves) (hpk : v.AffectedPackages ≠ []) :
    (v ∉ (r.FilterIgnorePkgs lib conf).1.ScannedCves
        ↔ ∀ p ∈ v.AffectedPackages,
            ∃ pat ∈ L, ∃ re, lib.Compile pat = .ok re ∧ lib.MatchString re p.Name = true) ∧
      (v ∈ (r.FilterIgnorePkgs lib conf).1.ScannedCves
        ↔ ∃ p ∈ v.AffectedPackages,
            ∀ pat ∈ L, ∀ re, lib.Compile pat = .ok re → lib.MatchString re p.Name = false) := by
  have hne : (compileRegexps lib L).1.length ≠ 0 := by
    obtain ⟨pat, hpat, re, hre⟩ := hcomp
    have : re ∈ (compileRegexps lib L).1 := (mem_compileRegexps lib L re).mpr ⟨pat, hpat, hre⟩
    intro h0
    rw [List.length_eq_zero] at h0
    rw [h0] at this
    exact absurd this (List.not_mem_nil re)
  have hout : (r.FilterIgnorePkgs lib conf).1.ScannedCves
      = r.ScannedCves.filter (ignorePkgsKeep lib (compileRegexps lib L).1) := by
    rw [FilterIgnorePkgs_of_resolved lib conf r L hL]
    simp [filterIgnorePkgsWith, hne, VulnInfos.Find]
  have hkeep : v ∈ (r.FilterIgnorePkgs lib conf).1.ScannedCves
      ↔ ∃ p ∈ v.AffectedPackages,
          ∀ pat ∈ L, ∀ re, lib.Compile pat = .ok re → lib.MatchString re p.Name = false := by
    rw [hout, List.mem_filter, ignorePkgsKeep_iff]
    simp only [hv, true_and, hpk, false_or]
    constructor
    · rintro ⟨p, hp, hall⟩
      exact ⟨p, hp, fun pat hpat re hre =>
        hall re ((mem_compileRegexps lib L re).mpr ⟨pat, hpat, hre⟩)⟩
    · rintro ⟨p, hp, hall⟩
      refine ⟨p, hp, fun re hre => ?_⟩
      obtain ⟨pat, hpat, hc⟩ := (mem_compileRegexps lib L re).mp hre
      exact hall pat hpat re hc
  refine ⟨?_, hkeep⟩
  rw [hkeep]
  constructor
  · intro hno p hp
    by_contra hnone
    apply hno
    refine ⟨p, hp, fun pat hpat re hre => ?_⟩
    cases hm : lib.MatchString re p.Name with
    | false => rfl
    | true => exact absurd ⟨pat, hpat, re, hre, hm⟩ hnone
  · rintro hall ⟨p, hp, hnone⟩
    obtain ⟨pat, hpat, re, hre, hm⟩ := hall p hp
    rw [hnone pat hpat re hre] at hm
    exact absurd hm (by simp)

/-- The pattern example of the specification at the finding with packages `libfoo` and
`curl`, under the prefix-matching library and the patterns `(` and `lib`. -/
theorem FilterIgnorePkgs_drop_iff_witness :
    resolvedIgnorePkgsRegexp sampleConf sampleResult = some ["(", "lib"] ∧
      (∃ pat ∈ ["(", "lib"], ∃ re, prefixLib.Compile pat = .ok re) ∧
      cve6 ∈ sampleResult.ScannedCves ∧ cve6.AffectedPackages ≠ [] ∧
      ((cve6 ∉ (sampleResult.FilterIgnorePkgs prefixLib sampleConf).1.ScannedCves
          ↔ ∀ p ∈ cve6.AffectedPackages,
              ∃ pat ∈ ["(", "lib"], ∃ re,
                prefixLib.Compile pat = .ok re ∧ prefixLib.MatchString re p.Name = true) ∧
        (cve6 ∈ (sampleResult.FilterIgnorePkgs prefixLib sampleConf).1.ScannedCves
          ↔ ∃ p ∈ cve6.AffectedPackages,
              ∀ pat ∈ ["(", "lib"], ∀ re,
                prefixLib.Compile pat = .ok re → prefixLib.MatchString re p.Name = false)) :=
  ⟨rfl, ⟨"lib", by decide, "lib", rfl⟩, by decide, by decide,
    FilterIgnorePkgs_drop_iff prefixLib sampleConf sampleResult ["(", "lib"] cve6 rfl
      ⟨"lib", by decide, "lib", rfl⟩ (by decide) (by decide)⟩

/-- The pattern example of the specification: the finding with packages `libfoo` and
`libbar` is dropped, the finding with `libfoo` and `curl` is kept, and the pattern that
does not compile is logged. -/
theorem FilterIgnorePkgs_example :
    ({ sampleResult with ScannedCves := [cve5, cve6] }.FilterIgnorePkgs prefixLib
        sampleConf).1.ScannedCves = [cve6] ∧
      ({ sampleResult with ScannedCves := [cve5, cve6] }.FilterIgnorePkgs prefixLib
        sampleConf).2 = ["Faild to parse (, missing closing )"] := by
  constructor
  · decide
  · decide

/-! ## Unknown targets -/

theorem ignoreCvesKeep_nil (v : VulnInfo) : ignoreCvesKeep [] v = true := rfl

theorem filterIgnorePkgsWith_nil (lib : RegexpLib) (r : ScanResult) :
    filterIgnorePkgsWith lib [] r = (r, []) := by
  simp [filterIgnorePkgsWith, compileRegexps]

theorem server_of_lookup_none (conf : config.Config) (name : String)
    (h : conf.Servers.lookup name = none) : conf.server name = config.ServerInfo.zero := by
  simp [config.Config.server, h]

/-- For a target without an entry in the configuration, `FilterIgnoreCves` and
`FilterIgnorePkgs` leave the findings as they are. -/
theorem unknownTarget_findings_unchanged (lib : RegexpLib) (conf : config.Config)
    (r : ScanResult) (h : unknownTarget conf r) :
    (r.FilterIgnoreCves conf).1.ScannedCves = r.ScannedCves ∧
      (r.FilterIgnorePkgs lib conf).1.ScannedCves = r.ScannedCves := by
  by_cases hn : r.Container.Name.length = 0
  · rcases h with hs | ⟨hne, _⟩
    · have hz := server_of_lookup_none conf r.ServerName hs
      constructor
      · simp [ScanResult.FilterIgnoreCves, hn, hz, config.ServerInfo.zero, VulnInfos.Find,
          ignoreCvesKeep_nil]
      · simp [ScanResult.FilterIgnorePkgs, hn, hz, config.ServerInfo.zero,
          filterIgnorePkgsWith_nil]
    · exact absurd hn hne
  · rcases h with hs | ⟨_, s, hs, hc⟩
    · constructor
      · simp [ScanResult.FilterIgnoreCves, hn, hs]
      · simp [ScanResult.FilterIgnorePkgs, hn, hs]
    · constructor
      · simp [ScanResult.FilterIgnoreCves, hn, hs, hc]
      · simp [ScanResult.FilterIgnorePkgs, hn, hs, hc]

/-- For a container target without an entry in the configuration, `FilterIgnoreCves`
and `FilterIgnorePkgs` each log exactly one message. -/
theorem unknownContainerTarget_logs_one (lib : RegexpLib) (conf : config.Config)
    (r : ScanResult) (hn : r.Container.Name.length ≠ 0) (h : unknownTarget conf r) :
    (r.FilterIgnoreCves conf).2.length = 1 ∧ (r.FilterIgnorePkgs lib conf).2.length = 1 := by
  rcases h with hs | ⟨_, s, hs, hc⟩
  · constructor
    · simp [ScanResult.FilterIgnoreCves, hn, hs]
    · simp [ScanResult.FilterIgnorePkgs, hn, hs]
  · constructor
    · simp [ScanResult.FilterIgnoreCves, hn, hs, hc]
    · simp [ScanResult.FilterIgnorePkgs, hn, hs, hc]

/-- For a host target (empty container name) whose server name has no entry in the
configuration, `FilterIgnoreCves` and `FilterIgnorePkgs` log nothing. -/
theorem unknownHostTarget_logs_nothing (lib : RegexpLib) (conf : config.Config)
    (r : ScanResult) (hn : r.Container.Name.length = 0)
    (hs : conf.Servers.lookup r.ServerName = none) :
    (r.FilterIgnoreCves conf).2 = [] ∧ (r.FilterIgnorePkgs lib conf).2 = [] := by
  have hz := server_of_lookup_none conf r.ServerName hs
  constructor
  · simp [ScanResult.FilterIgnoreCves, hn]
  · simp [ScanResult.FilterIgnorePkgs, hn, hz, config.ServerInfo.zero,
      filterIgnorePkgsWith_nil]

/-- C4, at a host whose server name is not a key of the configured servers: both
filters return the findings unchanged and log no message, where the claim has exactly
one; the container branch of the same functions logs one (see
`unknownContainerTarget_logs_one`). -/
theorem unknownHost_no_diagnostic :
    unknownTarget sampleConf unknownHostResult ∧
      unknownHostResult.FilterIgnoreCves sampleConf = (unknownHostResult, []) ∧
      unknownHostResult.FilterIgnorePkgs prefixLib sampleConf = (unknownHostResult, []) :=
  ⟨Or.inl rfl, by decide, by decide⟩

/-- An unknown container target: both filters return the result unchanged and log the
one message naming the container. -/
theorem unknownContainer_example :
    unknownContainerResult.FilterIgnoreCves sampleConf
        = (unknownContainerResult, ["worker is not found in config.toml"]) ∧
      unknownContainerResult.FilterIgnorePkgs prefixLib sampleConf
        = (unknownContainerResult, ["worker is not found in config.toml"]) :=
  ⟨by decide, by decide⟩

/-! ## Explicit ignore list -/

/-- C5: when the scope resolves to the ignore list `L`, the findings of the output of
`FilterIgnoreCves` are exactly the findings of the input whose CVE identifier is not an
element of `L`. -/
theorem FilterIgnoreCves_resolved (conf : config.Config) (r : ScanResult) (L : List String)
    (hL : resolvedIgnoreCves conf r = some L) :
    (r.FilterIgnoreCves conf).1.ScannedCves
        = r.ScannedCves.filter (fun v => decide (v.CveID ∉ L)) ∧
      ∀ v, v ∈ (r.FilterIgnoreCves conf).1.ScannedCves
        ↔ v ∈ r.ScannedCves ∧ v.CveID ∉ L := by
  have hfun : ignoreCvesKeep L = fun v => decide (v.CveID ∉ L) := by
    funext v
    rw [Bool.eq_iff_iff, ignoreCvesKeep_iff]
    simp
  have hout : (r.FilterIgnoreCves conf).1.ScannedCves
      = r.ScannedCves.filter (fun v => decide (v.CveID ∉ L)) := by
    rw [FilterIgnoreCves_of_resolved conf r L hL, ← hfun]
    rfl
  refine ⟨hout, fun v => ?_⟩
  rw [hout, List.mem_filter]
  simp

/-- The container `app` of `web01` ignores `CVE-2020-1`. -/
theorem FilterIgnoreCves_resolved_witness :
    resolvedIgnoreCves sampleConf sampleContainerResult = some ["CVE-2020-1"] ∧
      ((sampleContainerResult.FilterIgnoreCves sampleConf).1.ScannedCves
          = sampleContainerResult.ScannedCves.filter
              (fun v => decide (v.CveID ∉ ["CVE-2020-1"])) ∧
        ∀ v, v ∈ (sampleContainerResult.FilterIgnoreCves sampleConf).1.ScannedCves
          ↔ v ∈ sampleContainerResult.ScannedCves ∧ v.CveID ∉ ["CVE-2020-1"]) :=
  ⟨rfl, FilterIgnoreCves_resolved sampleConf sampleContainerResult ["CVE-2020-1"] rfl⟩

/-- The two scopes of the sample configuration evaluated. -/
theorem FilterIgnoreCves_example :
    (sampleContainerResult.FilterIgnoreCves sampleConf).1.ScannedCves = [cve2, cve5, cve6] ∧
      (sampleResult.FilterIgnoreCves sampleConf).1.ScannedCves
        = [cve1, cve3, cve4, cve5, cve6] :=
  ⟨by decide, by decide⟩

/-! ## Findings without affected packages -/

theorem filterIgnorePkgsWith_cves (lib : RegexpLib) (L : List String) (r : ScanResult) :
    (filterIgnorePkgsWith lib L r).1.ScannedCves = r.ScannedCves ∨
      (filterIgnorePkgsWith lib L r).1.ScannedCves
        = r.ScannedCves.filter (ignorePkgsKeep lib (compileRegexps lib L).1) := by
  by_cases h : (compileRegexps lib L).1.length = 0
  · left
    simp [filterIgnorePkgsWith, h]
  · right
    simp [filterIgnorePkgsWith, h, VulnInfos.Find]

theorem FilterIgnorePkgs_cves (lib : RegexpLib) (conf : config.Config) (r : ScanResult) :
    (r.FilterIgnorePkgs lib conf).1.ScannedCves = r.ScannedCves ∨
      ∃ regexps : List lib.Regexp,
        (r.FilterIgnorePkgs lib conf).1.ScannedCves
          = r.ScannedCves.filter (ignorePkgsKeep lib regexps) := by
  unfold ScanResult.FilterIgnorePkgs
  by_cases hn : r.Container.Name.length = 0
  · simp only [hn, if_true]
    rcases filterIgnorePkgsWith_cves lib (conf.server r.ServerName).IgnorePkgsRegexp r
      with h | h
    · exact Or.inl h
    · exact Or.inr ⟨_, h⟩
  · simp only [hn, if_false]
    cases hs : conf.Servers.lookup r.ServerName with
    | none => exact Or.inl rfl
    | some s =>
      dsimp only
      cases hc : s.Containers.lookup r.Container.Name with
      | none => exact Or.inl rfl
      | some con =>
        rcases filterIgnorePkgsWith_cves lib con.IgnorePkgsRegexp r with h | h
        · exact Or.inl h
        · exact Or.inr ⟨_, h⟩

/-- C6: a finding of the input with zero affected packages is dropped by `FilterUnfixed`
when `IgnoreUnfixed` is set, and is kept by `FilterIgnorePkgs` under every
configuration and every regexp library. -/
theorem zero_affected_packages (lib : RegexpLib) (conf : config.Config) (r : ScanResult)
    (v : VulnInfo) (hv : v ∈ r.ScannedCves) (h0 : v.AffectedPackages = []) :
    (conf.IgnoreUnfixed = true → v ∉ (r.FilterUnfixed conf).ScannedCves) ∧
      v ∈ (r.FilterIgnorePkgs lib conf).1.ScannedCves := by
  constructor
  · intro hconf hmem
    obtain ⟨_, p, hp, _⟩ := (mem_FilterUnfixed conf r hconf v).mp hmem
    rw [h0] at hp
    exact absurd hp (List.not_mem_nil p)
  · rcases FilterIgnorePkgs_cves lib conf r with h | ⟨regexps, h⟩
    · rw [h]
      exact hv
    · rw [h, List.mem_filter]
      exact ⟨hv, (ignorePkgsKeep_iff lib regexps v).mpr (Or.inl h0)⟩

/-- The sample finding without affected packages, in the sample host result. -/
theorem zero_affected_packages_witness :
    cve2 ∈ sampleResult.ScannedCves ∧ cve2.AffectedPackages = [] ∧
      ((sampleConf.IgnoreUnfixed = true →
          cve2 ∉ (sampleResult.FilterUnfixed sampleConf).ScannedCves) ∧
        cve2 ∈ (sampleResult.FilterIgnorePkgs prefixLib sampleConf).1.ScannedCves) :=
  ⟨by decide, rfl, zero_affected_packages prefixLib sampleConf sampleResult cve2
    (by decide) rfl⟩

/-! ## Properties shared by the four filters -/

/-- C7: for each of the four filters, the findings of the output are findings of the
input, unmodified and in the input's order (a sublist), so none is added. -/
theorem filter_findings_subset (lib : RegexpLib) (conf : config.Config) (T : Float64)
    (F : FilterKind) (r : ScanResult) :
    List.Sublist (applyFilter lib conf T F r).ScannedCves r.ScannedCves ∧
      ∀ v, v ∈ (applyFilter lib conf T F r).ScannedCves → v ∈ r.ScannedCves := by
  obtain ⟨q, hq⟩ := (isFindingsFilter_applyFilter lib conf T F).apply_eq r
  have hsub : List.Sublist (applyFilter lib conf T F r).ScannedCves r.ScannedCves := by
    rw [hq]
    exact List.filter_sublist r.ScannedCves
  exact ⟨hsub, fun v hv => hsub.subset hv⟩

/-- C8: for each of the four filters, the output with the input's findings put back is
the input: every field other than `ScannedCves` is unchanged. -/
theorem filter_frame (lib : RegexpLib) (conf : config.Config) (T : Float64)
    (F : FilterKind) (r : ScanResult) :
    { applyFilter lib conf T F r with ScannedCves := r.ScannedCves } = r := by
  obtain ⟨q, hq⟩ := (isFindingsFilter_applyFilter lib conf T F).apply_eq r
  rw [hq]

/-- C9: under a fixed configuration and threshold, any two of the four filters commute
on the findings. -/
theorem filters_commute (lib : RegexpLib) (conf : config.Config) (T : Float64)
    (F G : FilterKind) (r : ScanResult) :
    (applyFilter lib conf T F (applyFilter lib conf T G r)).ScannedCves
      = (applyFilter lib conf T G (applyFilter lib conf T F r)).ScannedCves := by
  rw [(isFindingsFilter_applyFilter lib conf T F).comm
    (isFindingsFilter_applyFilter lib conf T G) r]

/-- C10: `FilterUnfixed` is idempotent, whether `IgnoreUnfixed` is set or not. -/
theorem FilterUnfixed_idempotent (conf : config.Config) (r : ScanResult) :
    (r.FilterUnfixed conf).FilterUnfixed conf = r.FilterUnfixed conf :=
  (isFindingsFilter_unfixed conf).idem r

/-! ## Fixed status: the inactive filter -/

/-- C11: when `IgnoreUnfixed` is not set, `FilterUnfixed` returns its input, whatever
the findings are. -/
theorem FilterUnfixed_inactive (conf : config.Config) (r : ScanResult)
    (hconf : conf.IgnoreUnfixed = false) : r.FilterUnfixed conf = r := by
  simp [ScanResult.FilterUnfixed, hconf]

/-- The sample result, which has a finding with all packages not fixed yet and a
finding without packages, under the configuration with the flag not set. -/
theorem FilterUnfixed_inactive_witness :
    keepUnfixedConf.IgnoreUnfixed = false ∧
      sampleResult.FilterUnfixed keepUnfixedConf = sampleResult :=
  ⟨rfl, FilterUnfixed_inactive keepUnfixedConf sampleResult rfl⟩

/-! ## Package-name patterns: patterns that do not compile -/

theorem compiles_iff (lib : RegexpLib) (pat : String) :
    compiles lib pat = true ↔ ∃ re, lib.Compile pat = .ok re := by
  unfold compiles
  cases lib.Compile pat <;> simp

theorem filterMap_compile_filter (lib : RegexpLib) (L : List String) :
    (L.filter (compiles lib)).filterMap (fun pat => (lib.Compile pat).toOption)
      = L.filterMap (fun pat => (lib.Compile pat).toOption) := by
  induction L with
  | nil => rfl
  | cons pat rest ih =>
    cases hc : lib.Compile pat with
    | error e =>
      have hfalse : compiles lib pat = false := by simp [compiles, hc]
      have ho : (lib.Compile pat).toOption = none := by rw [hc]; rfl
      simp [List.filter_cons, hfalse, List.filterMap_cons, ho, ih]
    | ok re =>
      have htrue : compiles lib pat = true := by simp [compiles, hc]
      have ho : (lib.Compile pat).toOption = some re := by rw [hc]; rfl
      simp [List.filter_cons, htrue, List.filterMap_cons, ho, ih]

theorem compileRegexps_filter (lib : RegexpLib) (L : List String) :
    (compileRegexps lib (L.filter (compiles lib))).1 = (compileRegexps lib L).1 := by
  rw [compileRegexps_fst, compileRegexps_fst, filterMap_compile_filter]

theorem filterIgnorePkgsWith_fst (lib : RegexpLib) (L : List String) (r : ScanResult) :
    (filterIgnorePkgsWith lib L r).1
      = if (compileRegexps lib L).1.length = 0 then r
        else { r with
          ScannedCves := r.ScannedCves.filter (ignorePkgsKeep lib (compileRegexps lib L).1) } := by
  by_cases h : (compileRegexps lib L).1.length = 0
  · simp [filterIgnorePkgsWith, h]
  · simp [filterIgnorePkgsWith, h, VulnInfos.Find]

theorem compileRegexps_eq_nil (lib : RegexpLib) (L : List String)
    (h : ∀ pat ∈ L, ∀ re, lib.Compile pat ≠ .ok re) : (compileRegexps lib L).1 = [] := by
  rw [List.eq_nil_iff_forall_not_mem]
  intro re hre
  obtain ⟨pat, hpat, hc⟩ := (mem_compileRegexps lib L re).mp hre
  exact h pat hpat re hc

/-- C12: when the scope resolves to a pattern list of which no pattern compiles (the
list is empty or every pattern is invalid), `FilterIgnorePkgs` returns its input, the
findings unchanged. -/
theorem FilterIgnorePkgs_no_valid_pattern (lib : RegexpLib) (conf : config.Config)
    (r : ScanResult) (L : List String)
    (hL : resolvedIgnorePkgsRegexp conf r = some L)
    (hnone : ∀ pat ∈ L, ∀ re, lib.Compile pat ≠ .ok re) :
    (r.FilterIgnorePkgs lib conf).1 = r ∧
      (r.FilterIgnorePkgs lib conf).1.ScannedCves = r.ScannedCves := by
  have h : (r.FilterIgnorePkgs lib conf).1 = r := by
    rw [FilterIgnorePkgs_of_resolved lib conf r L hL, filterIgnorePkgsWith_fst,
      compileRegexps_eq_nil lib L hnone]
    simp
  exact ⟨h, by rw [h]⟩

/-- The sample result under the configuration whose only pattern does not compile. -/
theorem FilterIgnorePkgs_no_valid_pattern_witness :
    resolvedIgnorePkgsRegexp invalidPatternConf sampleResult = some ["("] ∧
      (∀ pat ∈ ["("], ∀ re, prefixLib.Compile pat ≠ .ok re) ∧
      ((sampleResult.FilterIgnorePkgs prefixLib invalidPatternConf).1 = sampleResult ∧
        (sampleResult.FilterIgnorePkgs prefixLib invalidPatternConf).1.ScannedCves
          = sampleResult.ScannedCves) :=
  have hbad : ∀ pat ∈ ["("], ∀ re, prefixLib.Compile pat ≠ .ok re := by
    intro pat hpat re
    rw [List.mem_singleton] at hpat
    subst hpat
    simp [prefixLib]
  ⟨rfl, hbad,
    FilterIgnorePkgs_no_valid_pattern prefixLib invalidPatternConf sampleResult ["("] rfl hbad⟩

/-- C13: the patterns that do not compile are skipped: when a configuration resolves
to the pattern list `L` and another to `L` without the patterns that fail to compile,
`FilterIgnorePkgs` returns the same result, hence the same findings, under both. -/
theorem FilterIgnorePkgs_skips_invalid (lib : RegexpLib) (conf conf2 : config.Config)
    (r : ScanResult) (L : List String)
    (hL : resolvedIgnorePkgsRegexp conf r = some L)
    (hL2 : resolvedIgnorePkgsRegexp conf2 r = some (L.filter (compiles lib))) :
    (r.FilterIgnorePkgs lib conf).1.ScannedCves
        = (r.FilterIgnorePkgs lib conf2).1.ScannedCves ∧
      (r.FilterIgnorePkgs lib conf).1 = (r.FilterIgnorePkgs lib conf2).1 := by
  have h : (r.FilterIgnorePkgs lib conf).1 = (r.FilterIgnorePkgs lib conf2).1 := by
    rw [FilterIgnorePkgs_of_resolved lib conf r L hL,
      FilterIgnorePkgs_of_resolved lib conf2 r _ hL2,
      filterIgnorePkgsWith_fst, filterIgnorePkgsWith_fst, compileRegexps_filter]
  exact ⟨by rw [h], h⟩

/-- The sample configuration has the patterns `(` and `lib` for `web01`; without the
pattern that does not compile the list is `lib` alone. -/
theorem FilterIgnorePkgs_skips_invalid_witness :
    resolvedIgnorePkgsRegexp sampleConf sampleResult = some ["(", "lib"] ∧
      resolvedIgnorePkgsRegexp libPatternConf sampleResult
        = some (["(", "lib"].filter (compiles prefixLib)) ∧
      ((sampleResult.FilterIgnorePkgs prefixLib sampleConf).1.ScannedCves
          = (sampleResult.FilterIgnorePkgs prefixLib libPatternConf).1.ScannedCves ∧
        (sampleResult.FilterIgnorePkgs prefixLib sampleConf).1
          = (sampleResult.FilterIgnorePkgs prefixLib libPatternConf).1) :=
  ⟨rfl, by decide,
    FilterIgnorePkgs_skips_invalid prefixLib sampleConf libPatternConf sampleResult
      ["(", "lib"] rfl (by decide)⟩

/-! ## Severity threshold: findings without scores, monotonicity -/

theorem effectiveSeverity_of_no_scores (v : VulnInfo) (h2 : v.Cvss2Scores = [])
    (h3 : v.Cvss3Scores = []) : effectiveSeverity v = 0 := by
  simp only [effectiveSeverity, VulnInfo.MaxCvss2Score, VulnInfo.MaxCvss3Score, bestScore,
    h2, h3, List.foldl_nil]
  decide

/-- C14: a finding of the input with no scores at all has effective severity 0 and is
in the output of `FilterByCvssOver T` exactly when `T ≤ 0`. -/
theorem FilterByCvssOver_no_scores (r : ScanResult) (T : Float64) (v : VulnInfo)
    (hv : v ∈ r.ScannedCves) (h2 : v.Cvss2Scores = []) (h3 : v.Cvss3Scores = []) :
    effectiveSeverity v = 0 ∧ (v ∈ (r.FilterByCvssOver T).ScannedCves ↔ T ≤ 0) := by
  have h0 := effectiveSeverity_of_no_scores v h2 h3
  refine ⟨h0, ?_⟩
  rw [mem_FilterByCvssOver, h0]
  simp [hv]

/-- The sample finding `cve3` has no score; at threshold 7 it is kept exactly when
`7 ≤ 0`. -/
theorem FilterByCvssOver_no_scores_witness :
    cve3 ∈ sampleResult.ScannedCves ∧ cve3.Cvss2Scores = [] ∧ cve3.Cvss3Scores = [] ∧
      (effectiveSeverity cve3 = 0 ∧
        (cve3 ∈ (sampleResult.FilterByCvssOver 7).ScannedCves ↔ (7 : Float64) ≤ 0)) :=
  ⟨by decide, rfl, rfl,
    FilterByCvssOver_no_scores sampleResult 7 cve3 (by decide) rfl rfl⟩

/-- C16: for thresholds `T1 ≤ T2`, the findings of `FilterByCvssOver T2` are findings
of `FilterByCvssOver T1`, and filtering by `T1` then by `T2` equals filtering by `T2`. -/
theorem FilterByCvssOver_monotone (r : ScanResult) (T1 T2 : Float64) (h : T1 ≤ T2) :
    (∀ v, v ∈ (r.FilterByCvssOver T2).ScannedCves → v ∈ (r.FilterByCvssOver T1).ScannedCves) ∧
      (r.FilterByCvssOver T1).FilterByCvssOver T2 = r.FilterByCvssOver T2 := by
  constructor
  · intro v hv
    rw [mem_FilterByCvssOver] at hv ⊢
    exact ⟨hv.1, float64_le_trans _ _ _ h hv.2⟩
  · have hl : (r.ScannedCves.filter (cvssOverKeep T1)).filter (cvssOverKeep T2)
        = r.ScannedCves.filter (cvssOverKeep T2) := by
      rw [List.filter_filter]
      apply List.filter_congr
      intro v _
      cases h2 : cvssOverKeep T2 v with
      | false => simp
      | true =>
        have h1 : cvssOverKeep T1 v = true :=
          (cvssOverKeep_iff T1 v).mpr
            (float64_le_trans _ _ _ h ((cvssOverKeep_iff T2 v).mp h2))
        simp [h1]
    simp only [ScanResult.FilterByCvssOver, VulnInfos.Find]
    rw [hl]

/-- The thresholds 3 and 7 on the sample result. -/
theorem FilterByCvssOver_monotone_witness :
    (3 : Float64) ≤ 7 ∧
      ((∀ v, v ∈ (sampleResult.FilterByCvssOver 7).ScannedCves →
          v ∈ (sampleResult.FilterByCvssOver 3).ScannedCves) ∧
        (sampleResult.FilterByCvssOver 3).FilterByCvssOver 7
          = sampleResult.FilterByCvssOver 7) :=
  ⟨by decide, FilterByCvssOver_monotone sampleResult 3 7 (by decide)⟩

/-! ## Idempotence -/

/-- C17: under a fixed configuration, `FilterByCvssOver T`, `FilterIgnoreCves` and
`FilterIgnorePkgs` each return, applied to their own result, that result again; this
covers the calls where the scope does not resolve or no pattern compiles. -/
theorem filters_idempotent (lib : RegexpLib) (conf : config.Config) (T : Float64)
    (r : ScanResult) :
    (r.FilterByCvssOver T).FilterByCvssOver T = r.FilterByCvssOver T ∧
      ((r.FilterIgnoreCves conf).1.FilterIgnoreCves conf).1 = (r.FilterIgnoreCves conf).1 ∧
      ((r.FilterIgnorePkgs lib conf).1.FilterIgnorePkgs lib conf).1
        = (r.FilterIgnorePkgs lib conf).1 :=
  ⟨(isFindingsFilter_byCvssOver T).idem r, (isFindingsFilter_ignoreCves conf).idem r,
    (isFindingsFilter_ignorePkgs lib conf).idem r⟩

/-! ## Package-name patterns: monotonicity in the pattern list -/

theorem filter_sublist_of_imp {α : Type} (p q : α → Bool)
    (h : ∀ a, p a = true → q a = true) (l : List α) :
    List.Sublist (l.filter p) (l.filter q) := by
  have hpq : (l.filter q).filter p = l.filter p := by
    rw [List.filter_filter]
    apply List.filter_congr
    intro a _
    cases hp : p a with
    | false => simp
    | true => simp [h a hp]
  rw [← hpq]
  exact List.filter_sublist (l.filter q)

theorem ignorePkgsKeep_mono (lib : RegexpLib) (R R2 : List lib.Regexp)
    (hsub : ∀ re ∈ R, re ∈ R2) (v : VulnInfo)
    (h : ignorePkgsKeep lib R2 v = true) : ignorePkgsKeep lib R v = true := by
  rw [ignorePkgsKeep_iff] at h ⊢
  rcases h with h | ⟨p, hp, hall⟩
  · exact Or.inl h
  · exact Or.inr ⟨p, hp, fun re hre => hall re (hsub re hre)⟩

/-- C18: when one configuration resolves to the pattern list `L` and another to a list
`L2` in which every pattern of `L` occurs, the findings kept by `FilterIgnorePkgs`
under `L2` are among the findings kept under `L`, in the same order. -/
theorem FilterIgnorePkgs_monotone (lib : RegexpLib) (conf conf2 : config.Config)
    (r : ScanResult) (L L2 : List String)
    (hL : resolvedIgnorePkgsRegexp conf r = some L)
    (hL2 : resolvedIgnorePkgsRegexp conf2 r = some L2)
    (hsub : ∀ pat ∈ L, pat ∈ L2) :
    List.Sublist (r.FilterIgnorePkgs lib conf2).1.ScannedCves
        (r.FilterIgnorePkgs lib conf).1.ScannedCves ∧
      ∀ v, v ∈ (r.FilterIgnorePkgs lib conf2).1.ScannedCves →
        v ∈ (r.FilterIgnorePkgs lib conf).1.ScannedCves := by
  have hR : ∀ re ∈ (compileRegexps lib L).1, re ∈ (compileRegexps lib L2).1 := by
    intro re hre
    obtain ⟨pat, hpat, hc⟩ := (mem_compileRegexps lib L re).mp hre
    exact (mem_compileRegexps lib L2 re).mpr ⟨pat, hsub pat hpat, hc⟩
  have hsl : List.Sublist (r.FilterIgnorePkgs lib conf2).1.ScannedCves
      (r.FilterIgnorePkgs lib conf).1.ScannedCves := by
    rw [FilterIgnorePkgs_of_resolved lib conf r L hL,
      FilterIgnorePkgs_of_resolved lib conf2 r L2 hL2,
      filterIgnorePkgsWith_fst, filterIgnorePkgsWith_fst]
    by_cases h1 : (compileRegexps lib L).1.length = 0
    · by_cases h2 : (compileRegexps lib L2).1.length = 0
      · simp [h1, h2]
      · simp only [h1, h2, if_true, if_false]
        exact List.filter_sublist r.ScannedCves
    · have h2 : (compileRegexps lib L2).1.length ≠ 0 := by
        intro h0
        apply h1
        rw [List.length_eq_zero] at h0 ⊢
        rw [List.eq_nil_iff_forall_not_mem]
        intro re hre
        have := hR re hre
        rw [h0] at this
        exact absurd this (List.not_mem_nil re)
      simp only [h1, h2, if_false]
      exact filter_sublist_of_imp _ _
        (ignorePkgsKeep_mono lib (compileRegexps lib L).1 (compileRegexps lib L2).1 hR)
        r.ScannedCves
  exact ⟨hsl, fun v hv => hsl.subset hv⟩

/-- The pattern lists `lib` and `lib`, `cu` on the sample result. -/
theorem FilterIgnorePkgs_monotone_witness :
    resolvedIgnorePkgsRegexp libPatternConf sampleResult = some ["lib"] ∧
      resolvedIgnorePkgsRegexp twoPatternConf sampleResult = some ["lib", "cu"] ∧
      (∀ pat ∈ ["lib"], pat ∈ ["lib", "cu"]) ∧
      (List.Sublist (sampleResult.FilterIgnorePkgs prefixLib twoPatternConf).1.ScannedCves
          (sampleResult.FilterIgnorePkgs prefixLib libPatternConf).1.ScannedCves ∧
        ∀ v, v ∈ (sampleResult.FilterIgnorePkgs prefixLib twoPatternConf).1.ScannedCves →
          v ∈ (sampleResult.FilterIgnorePkgs prefixLib libPatternConf).1.ScannedCves) :=
  ⟨rfl, rfl, by decide,
    FilterIgnorePkgs_monotone prefixLib libPatternConf twoPatternConf sampleResult
      ["lib"] ["lib", "cu"] rfl rfl (by decide)⟩

/-- The two pattern lists evaluated on the sample result: the second pattern drops the
finding with packages `libfoo` and `curl` as well. -/
theorem FilterIgnorePkgs_monotone_example :
    (sampleResult.FilterIgnorePkgs prefixLib libPatternConf).1.ScannedCves
        = [cve1, cve2, cve3, cve4, cve6] ∧
      (sampleResult.FilterIgnorePkgs prefixLib twoPatternConf).1.ScannedCves
        = [cve1, cve2, cve3, cve4] :=
  ⟨by decide, by decide⟩

/-! ## Names of a scan result -/

theorem length_eq_zero_iff_empty (s : String) : s.length = 0 ↔ s = "" := by
  constructor
  · intro h
    cases s with
    | mk l =>
      have hl : l = [] := List.length_eq_zero.mp h
      rw [hl]
  · intro h
    rw [h]
    rfl

/-- C19: `FormatServerName` is the report file name, headed by `[Reboot Required] `
exactly when the running kernel requires a reboot; `ReportFileName` is the server name
when the container identifier is empty (`IsContainer` false) and the container name,
`@` and the server name otherwise. -/
theorem FormatServerName_eq (r : ScanResult) :
    r.FormatServerName = specServerName r ∧
      (r.RunningKernel.RebootRequired = false → r.FormatServerName = r.ReportFileName) ∧
      (r.RunningKernel.RebootRequired = true →
        r.FormatServerName = "[Reboot Required] " ++ r.ReportFileName) ∧
      (r.Container.ContainerID = "" →
        r.IsContainer = false ∧ r.ReportFileName = r.ServerName) ∧
      (r.Container.ContainerID ≠ "" →
        r.IsContainer = true ∧
          r.ReportFileName = r.Container.Name ++ "@" ++ r.ServerName) := by
  refine ⟨rfl, ?_, ?_, ?_, ?_⟩
  · intro h
    simp [ScanResult.FormatServerName, ScanResult.ReportFileName, h]
  · intro h
    simp [ScanResult.FormatServerName, ScanResult.ReportFileName, h]
  · intro h
    simp [ScanResult.IsContainer, ScanResult.ReportFileName, h]
  · intro h
    have hlen : r.Container.ContainerID.length ≠ 0 :=
      fun h0 => h ((length_eq_zero_iff_empty _).mp h0)
    simp [ScanResult.IsContainer, ScanResult.ReportFileName, hlen, Nat.pos_of_ne_zero hlen]

/-- The names of a container result whose kernel requires a reboot and of a host
result whose kernel does not. -/
theorem FormatServerName_example :
    rebootContainerResult.FormatServerName = "[Reboot Required] app@web01" ∧
      rebootContainerResult.ReportFileName = "app@web01" ∧
      rebootContainerResult.IsContainer = true ∧
      sampleResult.FormatServerName = "web01" ∧
      sampleResult.ReportFileName = "web01" ∧
      sampleResult.IsContainer = false :=
  ⟨by decide, by decide, by decide, by decide, by decide, by decide⟩

end models

namespace scan

/-! ## The unknown distribution is a no-op -/

/-- C15: for the scanner of an unknown distribution, `checkDeps`,
`checkIfSudoNoPasswd`, `preCure`, `scanPackages` and `postScan` return no error, and
for every raw input `parseInstalledPackages` returns an empty binary package
collection, an empty source package collection and no error. -/
theorem unknown_noop {Base : Type} (o : unknown Base) (raw : String) :
    o.checkDeps = none ∧ o.checkIfSudoNoPasswd = none ∧ o.preCure = none ∧
      o.scanPackages = none ∧ o.postScan = none ∧
      o.parseInstalledPackages raw = ([], [], none) :=
  ⟨rfl, rfl, rfl, rfl, rfl, rfl⟩

end scan
